import Mathlib

/-!
Verification development for the gRPC settings-compilation core of the
collector repository (package configgrpc), together with its identity
propagation middleware.

The repository snapshot ships only the test file
src/config/configgrpc/configgrpc_test.go for this package; the
implementation file itself is absent. Every operation below is therefore
modelled from the specification text (spec.md), with the in-repo test file
fixing concrete observable behaviour (option counts, error messages, the
contextWithClient table, the stream-interceptor behaviour).

Conventions of the embedding:
- Local file I/O is modelled by an explicit `FileSystem` value: the set of
  paths that can be read successfully.
- Go `(value, error)` return pairs are modelled as
  `List _ × Option CompileError` for the compilers (mirroring the Go shape,
  where an early `return nil, err` yields an empty list plus an error) and
  as `Except` for the inner resolvers.
- Durations, byte counts and stream counts are `Nat`/`Int`; network
  addresses are rendered strings.
-/

/-- A file system: the set of paths whose contents load successfully. -/
def FileSystem := List String

/-- Whether a path can be read and parsed successfully. -/
def fileReadable (fs : FileSystem) (p : String) : Bool :=
  List.contains fs p

/-- TLS material shared by client and server descriptors: CA file path,
certificate file path, private-key file path. -/
structure TLSSetting where
  caFile : String
  certFile : String
  keyFile : String
deriving DecidableEq, Repr

/-- Client-side TLS descriptor: base material, insecure flag, server-name
override. -/
structure TLSClientSetting where
  tlsSetting : TLSSetting
  insecure : Bool
  serverName : String
deriving DecidableEq, Repr

/-- Server-side TLS descriptor: base material plus client-CA file path
(non-empty enables mutual authentication). -/
structure TLSServerSetting where
  tlsSetting : TLSSetting
  clientCAFile : String
deriving DecidableEq, Repr

/-- A compiled TLS configuration, carrying the validated file references. -/
structure TLSCfg where
  caFile : String
  certFile : String
  keyFile : String
  serverName : String
  clientCAFile : String
deriving DecidableEq, Repr

/-- Failures of the Transport Security Resolver. -/
inductive TLSError where
  | caLoad (path : String)
  | certKeyPairing
  | certPairLoad (path : String)
  | clientCALoad (path : String)
deriving DecidableEq, Repr

/-- Human-readable rendering of a TLS resolver failure, matching the
messages asserted by the repository tests. -/
def TLSError.message : TLSError → String
  | .caLoad p =>
      "failed to load CA CertPool: failed to load CA " ++ p ++ ": open " ++ p
        ++ ": no such file or directory"
  | .certKeyPairing =>
      "for auth via TLS, either both certificate and key must be supplied, or neither"
  | .certPairLoad p => "failed to load TLS cert and key: " ++ p
  | .clientCALoad p =>
      "failed to load client CA CertPool: failed to load CA " ++ p ++ ": open " ++ p
        ++ ": no such file or directory"

/-- Modelled from the spec: the shared part of the Transport Security
Resolver (the implementation file is absent from the snapshot). Loads the
CA bundle if a CA file is given (failure wraps the file path), then
enforces the certificate/key pairing invariant (both empty or both
non-empty), then loads the certificate/key pair when both are given. -/
def loadTLSSettingBase (fs : FileSystem) (t : TLSSetting) : Except TLSError Unit :=
  if t.caFile != "" && !(fileReadable fs t.caFile) then
    .error (.caLoad t.caFile)
  else if (t.certFile == "") != (t.keyFile == "") then
    .error .certKeyPairing
  else if t.certFile != "" && (!(fileReadable fs t.certFile) || !(fileReadable fs t.keyFile)) then
    .error (.certPairLoad t.certFile)
  else
    .ok ()

/-- Modelled from the spec: client variant of the Transport Security
Resolver. With `insecure = true` and no CA/cert material it bypasses
credential construction entirely and yields `none`, the no-security
marker; otherwise it resolves the base material. -/
def TLSClientSetting.loadTLSConfig (fs : FileSystem) (c : TLSClientSetting) :
    Except TLSError (Option TLSCfg) :=
  if c.insecure && c.tlsSetting.caFile == "" && c.tlsSetting.certFile == ""
      && c.tlsSetting.keyFile == "" then
    .ok none
  else
    match loadTLSSettingBase fs c.tlsSetting with
    | .error e => .error e
    | .ok _ =>
        .ok (some ⟨c.tlsSetting.caFile, c.tlsSetting.certFile, c.tlsSetting.keyFile,
          c.serverName, ""⟩)

/-- Modelled from the spec: server variant of the Transport Security
Resolver; additionally loads the client-CA bundle when mutual
authentication is requested. -/
def TLSServerSetting.loadTLSConfig (fs : FileSystem) (s : TLSServerSetting) :
    Except TLSError TLSCfg :=
  match loadTLSSettingBase fs s.tlsSetting with
  | .error e => .error e
  | .ok _ =>
      if s.clientCAFile != "" && !(fileReadable fs s.clientCAFile) then
        .error (.clientCALoad s.clientCAFile)
      else
        .ok ⟨s.tlsSetting.caFile, s.tlsSetting.certFile, s.tlsSetting.keyFile, "",
          s.clientCAFile⟩

/-- Client keepalive descriptor: ping interval, ping timeout,
permit-without-active-stream flag. Durations in nanoseconds. -/
structure KeepaliveClientConfig where
  time : Nat
  timeout : Nat
  permitWithoutStream : Bool
deriving DecidableEq, Repr

/-- Server keepalive parameters sub-group. -/
structure KeepaliveServerParameters where
  maxConnectionIdle : Nat
  maxConnectionAge : Nat
  maxConnectionAgeGrace : Nat
  time : Nat
  timeout : Nat
deriving DecidableEq, Repr

/-- Server keepalive enforcement-policy sub-group. -/
structure KeepaliveEnforcementPolicy where
  minTime : Nat
  permitWithoutStream : Bool
deriving DecidableEq, Repr

/-- Server keepalive descriptor: two independently optional sub-groups. -/
structure KeepaliveServerConfig where
  serverParameters : Option KeepaliveServerParameters
  enforcementPolicy : Option KeepaliveEnforcementPolicy
deriving DecidableEq, Repr

/-- An extension object held in the capability registry of the host. -/
inductive HostExtension where
  | clientAuthenticator
  | serverAuthenticator
  | other
deriving DecidableEq, Repr

/-- The host handle: exposes an extension registry, or none at all
(mirroring a nil map returned by GetExtensions). -/
structure Host where
  extensions : Option (List (String × HostExtension))
deriving Repr

/-- A host exposing no extension registry at all. -/
def nopHost : Host := ⟨none⟩

/-- Failures distinguished by the Authenticator Resolver. -/
inductive AuthError where
  | authenticatorNotFound
  | wrongCapability
deriving DecidableEq, Repr

/-- Rendering of an authenticator-resolution failure. -/
def AuthError.message : AuthError → String
  | .authenticatorNotFound => "authenticator not found"
  | .wrongCapability => "requested authenticator holds the wrong capability"

/-- Errors returned by settings compilation. -/
inductive CompileError where
  | tlsConfig (e : TLSError)
  | invalidBalancerName (name : String)
  | authResolve (id : String) (e : AuthError)
  | noExtensionsAvailable
  | unsupportedCompression (compression : String)
deriving DecidableEq, Repr

/-- Human-readable rendering of a compilation error, matching the messages
asserted by the repository tests: TLS failures are wrapped with a fixed
TLS prefix, authenticator failures name the identifier, and the
no-registry error propagates verbatim. -/
def CompileError.message : CompileError → String
  | .tlsConfig e => "failed to load TLS config: " ++ e.message
  | .invalidBalancerName n => "invalid balancer_name: " ++ n
  | .authResolve id e => "failed to resolve authenticator \"" ++ id ++ "\": " ++ e.message
  | .noExtensionsAvailable => "no extensions configuration available"
  | .unsupportedCompression c => "unsupported compression type \"" ++ c ++ "\""

/-- Client connection settings (GRPCClientSettings). -/
structure GRPCClientSettings where
  headers : List (String × String)
  endpoint : String
  compression : String
  tlsSetting : TLSClientSetting
  keepalive : Option KeepaliveClientConfig
  readBufferSize : Int
  writeBufferSize : Int
  waitForReady : Bool
  balancerName : String
  auth : Option String
deriving Repr

/-- Network address descriptor: endpoint plus transport kind
("tcp" for stream-oriented sockets, "unix" for local file-sockets). -/
structure NetAddr where
  endpoint : String
  transport : String
deriving DecidableEq, Repr

/-- Server connection settings (GRPCServerSettings). -/
structure GRPCServerSettings where
  netAddr : NetAddr
  tlsSetting : Option TLSServerSetting
  maxRecvMsgSizeMiB : Nat
  maxConcurrentStreams : Nat
  readBufferSize : Int
  writeBufferSize : Int
  keepalive : Option KeepaliveServerConfig
  auth : Option String
deriving Repr

/-- A compiled client connection option. -/
inductive DialOption where
  | withInsecure
  | withTransportCredentials (cfg : TLSCfg)
  | withKeepaliveParams (k : KeepaliveClientConfig)
  | withPerRPCCredentials (id : String)
  | withCompressor (alg : String)
  | withDefaultServiceConfig (balancer : String)
  | withReadBufferSize (n : Int)
  | withWriteBufferSize (n : Int)
  | withUnaryInterceptor
  | withStreamInterceptor
deriving DecidableEq, Repr

/-- Position of a client option in the documented fixed append sequence:
transport security, keepalive, authenticator, compression/balancer
selectors, buffer settings, instrumentation wrapping. -/
def DialOption.category : DialOption → Nat
  | .withInsecure => 0
  | .withTransportCredentials _ => 0
  | .withKeepaliveParams _ => 1
  | .withPerRPCCredentials _ => 2
  | .withCompressor _ => 3
  | .withDefaultServiceConfig _ => 3
  | .withReadBufferSize _ => 4
  | .withWriteBufferSize _ => 4
  | .withUnaryInterceptor => 5
  | .withStreamInterceptor => 5

/-- Interceptors that can appear in a server-side unary chain. -/
inductive UnaryInterceptor where
  | identity
  | auth (id : String)
  | instrumentation
deriving DecidableEq, Repr

/-- Interceptors that can appear in a server-side stream chain. -/
inductive StreamInterceptor where
  | identity
  | auth (id : String)
  | instrumentation
deriving DecidableEq, Repr

/-- A compiled server option. -/
inductive ServerOption where
  | creds (cfg : TLSCfg)
  | keepaliveParams (p : KeepaliveServerParameters)
  | keepaliveEnforcementPolicy (p : KeepaliveEnforcementPolicy)
  | chainUnaryInterceptor (l : List UnaryInterceptor)
  | chainStreamInterceptor (l : List StreamInterceptor)
  | maxRecvMsgSize (bytes : Nat)
  | maxConcurrentStreams (n : Nat)
  | readBufferSize (n : Int)
  | writeBufferSize (n : Int)
deriving DecidableEq, Repr

/-- Position of a server option in the documented fixed append sequence:
transport security, keepalive, interceptor chains (authenticator and
identity middleware), buffer/limit settings. -/
def ServerOption.category : ServerOption → Nat
  | .creds _ => 0
  | .keepaliveParams _ => 1
  | .keepaliveEnforcementPolicy _ => 1
  | .chainUnaryInterceptor _ => 2
  | .chainStreamInterceptor _ => 2
  | .maxRecvMsgSize _ => 3
  | .maxConcurrentStreams _ => 3
  | .readBufferSize _ => 3
  | .writeBufferSize _ => 3

/-- Balancer policies recognized by the transport implementation
(the defaults registered by the gRPC library). -/
def validBalancerName (n : String) : Bool :=
  n == "round_robin" || n == "pick_first"

/-- Modelled from the spec: the Authenticator Resolver shared by both
compilers (implementation file absent). Fails with the no-registry error
when the host exposes no extension registry at all; fails with a wrapped
not-found error when the identifier is absent from the registry; checks
the found entry for the requested capability. Returns the resolved
identifier, or none when no reference is set. -/
def resolveAuthenticator (host : Host) (auth : Option String) (wantClient : Bool) :
    Except CompileError (Option String) :=
  match auth with
  | none => .ok none
  | some id =>
    match host.extensions with
    | none => .error .noExtensionsAvailable
    | some exts =>
      match exts.lookup id with
      | none => .error (.authResolve id .authenticatorNotFound)
      | some ext =>
          if (wantClient && ext == .clientAuthenticator)
              || (!wantClient && ext == .serverAuthenticator) then
            .ok (some id)
          else
            .error (.authResolve id .wrongCapability)

/-- The always-present transport-security option of the client path: the
explicit insecure marker when credential construction was bypassed. -/
def securityOption : Option TLSCfg → DialOption
  | none => .withInsecure
  | some cfg => .withTransportCredentials cfg

/-- Keepalive Resolver, client side: pure data-to-option mapping; an
absent descriptor emits no option. -/
def keepaliveClientOpts : Option KeepaliveClientConfig → List DialOption
  | none => []
  | some k => [.withKeepaliveParams k]

/-- The per-call credential option produced by a resolved client
authenticator, or nothing when no reference was set. -/
def authDialOpts : Option String → List DialOption
  | none => []
  | some id => [.withPerRPCCredentials id]

/-- Compression selector: empty means none; gzip is the supported
algorithm; anything else is rejected. -/
def compressionOpts (c : String) : Except CompileError (List DialOption) :=
  if c == "" then .ok []
  else if c == "gzip" then .ok [.withCompressor "gzip"]
  else .error (.unsupportedCompression c)

/-- Balancer selector option (the name has already been validated). -/
def balancerOpts (n : String) : List DialOption :=
  if n == "" then [] else [.withDefaultServiceConfig n]

/-- Buffer-size options; a non-positive size emits no option. -/
def bufferDialOpts (r w : Int) : List DialOption :=
  (if 0 < r then [.withReadBufferSize r] else [])
    ++ (if 0 < w then [.withWriteBufferSize w] else [])

/-- Modelled from the spec: the Client Settings Compiler ToDialOptions
(implementation file absent). Resolves transport security first (failures
wrapped with the TLS prefix), validates the balancer policy name, resolves
the authenticator reference, validates the compression selector, then
returns the full ordered option list. Header map and wait-for-ready flag
are consumed at call time and emit no connection option (the repository
tests fix the option counts at 3 and 9). On any failure the Go shape
`return nil, err` is mirrored: an empty list plus the error. -/
def GRPCClientSettings.ToDialOptions (fs : FileSystem) (host : Host)
    (gcs : GRPCClientSettings) : List DialOption × Option CompileError :=
  match gcs.tlsSetting.loadTLSConfig fs with
  | .error e => ([], some (.tlsConfig e))
  | .ok tlsCfg =>
    if gcs.balancerName != "" && !(validBalancerName gcs.balancerName) then
      ([], some (.invalidBalancerName gcs.balancerName))
    else
      match resolveAuthenticator host gcs.auth true with
      | .error e => ([], some e)
      | .ok authId =>
        match compressionOpts gcs.compression with
        | .error e => ([], some e)
        | .ok compOpts =>
            ([securityOption tlsCfg]
              ++ (keepaliveClientOpts gcs.keepalive
              ++ (authDialOpts authId
              ++ (compOpts
              ++ (balancerOpts gcs.balancerName
              ++ (bufferDialOpts gcs.readBufferSize gcs.writeBufferSize
              ++ [.withUnaryInterceptor, .withStreamInterceptor]))))), none)

/-- Server transport-security options: absent descriptor means no
transport security and no option. -/
def serverCredOpts (fs : FileSystem) : Option TLSServerSetting →
    Except TLSError (List ServerOption)
  | none => .ok []
  | some s =>
    match s.loadTLSConfig fs with
    | .error e => .error e
    | .ok cfg => .ok [.creds cfg]

/-- Keepalive Resolver, server side: each sub-group independently emits
its option when present. -/
def serverKeepaliveOpts : Option KeepaliveServerConfig → List ServerOption
  | none => []
  | some k =>
      (match k.serverParameters with
        | none => []
        | some p => [.keepaliveParams p])
        ++ (match k.enforcementPolicy with
        | none => []
        | some p => [.keepaliveEnforcementPolicy p])

/-- Buffer and limit options of the server path. -/
def serverLimitOpts (gss : GRPCServerSettings) : List ServerOption :=
  (if 0 < gss.maxRecvMsgSizeMiB then [.maxRecvMsgSize (gss.maxRecvMsgSizeMiB * 1024 * 1024)]
    else [])
    ++ ((if 0 < gss.maxConcurrentStreams then [.maxConcurrentStreams gss.maxConcurrentStreams]
    else [])
    ++ ((if 0 < gss.readBufferSize then [.readBufferSize gss.readBufferSize] else [])
    ++ (if 0 < gss.writeBufferSize then [.writeBufferSize gss.writeBufferSize] else [])))

/-- The unary interceptor chain: the identity middleware always comes
first, then any authenticator interceptor, then instrumentation. -/
def unaryChain (authId : Option String) : List UnaryInterceptor :=
  .identity :: ((match authId with | none => [] | some id => [.auth id])
    ++ [.instrumentation])

/-- The stream interceptor chain: the identity middleware always comes
first, then any authenticator interceptor, then instrumentation. -/
def streamChain (authId : Option String) : List StreamInterceptor :=
  .identity :: ((match authId with | none => [] | some id => [.auth id])
    ++ [.instrumentation])

/-- Modelled from the spec: the Server Settings Compiler ToServerOption
(implementation file absent). Same resolver calls as the client path with
server variants; always installs the identity propagation middleware as
the first unary and first streaming interceptor, ahead of any
authenticator interceptor. On any failure the Go shape `return nil, err`
is mirrored: an empty list plus the error. -/
def GRPCServerSettings.ToServerOption (fs : FileSystem) (host : Host)
    (gss : GRPCServerSettings) : List ServerOption × Option CompileError :=
  match serverCredOpts fs gss.tlsSetting with
  | .error e => ([], some (.tlsConfig e))
  | .ok copts =>
    match resolveAuthenticator host gss.auth false with
    | .error e => ([], some e)
    | .ok authId =>
        (copts
          ++ (serverKeepaliveOpts gss.keepalive
          ++ ([.chainUnaryInterceptor (unaryChain authId),
              .chainStreamInterceptor (streamChain authId)]
          ++ serverLimitOpts gss)), none)

/-- Per-call identity record (client.Info): the resolved network address
of the caller, rendered as a string; none means unaddressed. -/
structure ClientInfo where
  addr : Option String
deriving DecidableEq, Repr

/-- The call execution context, restricted to the two keys this core
touches: the application-set ClientInfo value and the transport-layer
peer address. -/
structure Context where
  clientInfo : Option ClientInfo
  peerAddr : Option String
deriving DecidableEq, Repr

/-- client.FromContext: the ClientInfo stored in the context, defaulted to
the empty record when absent. -/
def client.FromContext (ctx : Context) : ClientInfo :=
  match ctx.clientInfo with
  | none => ⟨none⟩
  | some ci => ci

/-- client.NewContext: derive a context holding the given ClientInfo. -/
def client.NewContext (ctx : Context) (ci : ClientInfo) : Context :=
  { ctx with clientInfo := some ci }

/-- peer.FromContext: the transport-layer peer address, when the transport
exposes one for this call. -/
def peer.FromContext (ctx : Context) : Option String :=
  ctx.peerAddr

/-- Modelled from the spec: contextWithClient, the per-call state machine
of the Identity Propagation Middleware (implementation file absent).
Reads any ClientInfo already present (defaulted to the empty record); if
the transport exposes a negotiated peer address, constructs a new
ClientInfo with that address, unconditionally overriding any address
already present; stores the result into a new context. -/
def contextWithClient (ctx : Context) : Context :=
  match peer.FromContext ctx with
  | some p => client.NewContext ctx ⟨some p⟩
  | none => client.NewContext ctx (client.FromContext ctx)

/-- A server stream: either a transport-provided stream with its inbound
context, or a delegating wrapper overriding only the context accessor. -/
inductive ServerStream where
  | base (ctx : Context)
  | wrapped (inner : ServerStream) (ctx : Context)
deriving DecidableEq, Repr

/-- The Context accessor of the stream. -/
def ServerStream.context : ServerStream → Context
  | .base ctx => ctx
  | .wrapped _ ctx => ctx

/-- Modelled from the spec: the unary identity interceptor
enhanceWithClientInformation (implementation file absent): it invokes the
handler on the enriched context and returns the result of the handler. -/
def enhanceWithClientInformation {α β : Type} (ctx : Context) (req : α)
    (handler : Context → α → β × Option String) : β × Option String :=
  handler (contextWithClient ctx) req

/-- Modelled from the spec: the streaming identity interceptor
enhanceStreamWithClientInformation (implementation file absent): it wraps
the stream so its Context accessor returns the enriched context, invokes
the handler on the wrapped stream and returns exactly the result of the
handler (an optional error). -/
def enhanceStreamWithClientInformation (stream : ServerStream)
    (handler : ServerStream → Option String) : Option String :=
  handler (.wrapped stream (contextWithClient stream.context))

/-- A bound listener: the transport kind and the concrete bound address
(a host:port rendering, or a filesystem path for file-sockets). -/
structure Listener where
  transport : String
  boundEndpoint : String
deriving DecidableEq, Repr

/-- Listener creation failures: a wrapped bind/resolve error naming the
transport, the endpoint and the cause. -/
inductive ListenError where
  | bindError (transport endpoint reason : String)
deriving DecidableEq, Repr

/-- The environment of a single bind attempt: the free ephemeral port the
operating system would assign to a port-0 request, the network addresses
some other socket is already bound to, and the filesystem paths that
already exist (a pre-existing socket path makes a unix bind fail). -/
structure NetEnv where
  ephemeralPort : Nat
  boundAddrs : List String
  existingPaths : List String
deriving DecidableEq, Repr

/-- Split a character sequence at its last colon: host part and port part. -/
def hostPortSplit : List Char → Option (List Char × List Char)
  | [] => none
  | c :: rest =>
    match hostPortSplit rest with
    | some (h, p) => some (c :: h, p)
    | none => if c = ':' then some ([], rest) else none

/-- Split a host:port endpoint at its last colon. -/
def splitHostPort (s : String) : Option (String × String) :=
  match hostPortSplit s.data with
  | none => none
  | some (h, p) => some (String.mk h, String.mk p)

/-- The numeric value of a decimal digit character. -/
def digitVal (c : Char) : Option Nat :=
  if 48 ≤ c.toNat ∧ c.toNat ≤ 57 then some (c.toNat - 48) else none

/-- Accumulate the decimal value of a character sequence. -/
def parseNatAux : List Char → Nat → Option Nat
  | [], acc => some acc
  | c :: rest, acc =>
    match digitVal c with
    | none => none
    | some d => parseNatAux rest (acc * 10 + d)

/-- Parse a port string: non-empty, decimal digits, value at most 65535. -/
def parsePort (s : String) : Option Nat :=
  match s.data with
  | [] => none
  | c :: rest =>
    match parseNatAux (c :: rest) 0 with
    | none => none
    | some n => if n ≤ 65535 then some n else none

/-- Modelled from the spec: binding a listener for a network address
descriptor (net.Listen; implementation file absent). The local
file-socket transport kind binds the filesystem-path endpoint, failing on
a pre-existing socket path; a stream-oriented network address needs a
well-formed host:port with an in-range port, failing on an address some
other socket is already bound to, where port 0 asks the operating system
for a free ephemeral port; any malformed address fails with a wrapped
bind/resolve error, without retry. -/
def netListen (env : NetEnv) (transport endpoint : String) : Except ListenError Listener :=
  if transport == "unix" then
    if List.contains env.existingPaths endpoint then
      .error (.bindError "unix" endpoint "address already in use")
    else
      .ok ⟨"unix", endpoint⟩
  else
    match splitHostPort endpoint with
    | none => .error (.bindError transport endpoint "missing port in address")
    | some (h, p) =>
      match parsePort p with
      | none => .error (.bindError transport endpoint ("invalid port " ++ p))
      | some 0 => .ok ⟨transport, h ++ ":" ++ toString env.ephemeralPort⟩
      | some n =>
        if List.contains env.boundAddrs (h ++ ":" ++ toString n) then
          .error (.bindError transport endpoint "address already in use")
        else
          .ok ⟨transport, h ++ ":" ++ toString n⟩

/-- Modelled from the spec: ToListener delegates to the network address
bind operation of the network address descriptor. -/
def GRPCServerSettings.ToListener (env : NetEnv) (gss : GRPCServerSettings) :
    Except ListenError Listener :=
  netListen env gss.netAddr.transport gss.netAddr.endpoint

/-- Fixture of TestDefaultGrpcClientSettings: only the insecure flag set. -/
def defaultClientSettings : GRPCClientSettings :=
  ⟨[], "", "", ⟨⟨"", "", ""⟩, true, ""⟩, none, 0, 0, false, "", none⟩

/-- Fixture of TestAllGrpcClientSettings: every field populated. -/
def allClientSettings : GRPCClientSettings :=
  ⟨[("test", "test")], "localhost:1234", "gzip", ⟨⟨"", "", ""⟩, false, ""⟩,
    some ⟨1000000000, 1000000000, true⟩, 1024, 1024, true, "round_robin", some "testauth"⟩

/-- Fixture host of TestAllGrpcClientSettings: a registry holding a mock
client authenticator under "testauth". -/
def allSettingsHost : Host := ⟨some [("testauth", .clientAuthenticator)]⟩

/-- Fixture of TestDefaultGrpcServerSettings: the zero value. -/
def defaultServerSettings : GRPCServerSettings :=
  ⟨⟨"", ""⟩, none, 0, 0, 0, 0, none, none⟩

/-- Fixture of TestAllGrpcServerSettingsExceptAuth: every field except the
authenticator reference populated. -/
def allServerSettings : GRPCServerSettings :=
  ⟨⟨"localhost:1234", "tcp"⟩, some ⟨⟨"", "", ""⟩, ""⟩, 1, 1024, 1024, 1024,
    some ⟨some ⟨1000000000, 1000000000, 1000000000, 1000000000, 1000000000⟩,
      some ⟨1000000000, true⟩⟩, none⟩

/-- Fixture of TestGRPCClientSettingsError: a certificate path without a
key path. -/
def certOnlyClientSettings : GRPCClientSettings :=
  ⟨[], "", "", ⟨⟨"", "/doesnt/exist", ""⟩, false, ""⟩, none, 0, 0, false, "", none⟩

/-- Fixture of TestGRPCClientSettingsError: an unrecognized balancer
policy name. -/
def badBalancerClientSettings : GRPCClientSettings :=
  ⟨[("test", "test")], "localhost:1234", "gzip", ⟨⟨"", "", ""⟩, false, ""⟩,
    some ⟨1000000000, 1000000000, true⟩, 1024, 1024, true, "test", none⟩

/-- Fixture of TestGRPCClientSettingsError: an authenticator reference
naming an identifier absent from the (empty but present) registry. -/
def authMissingClientSettings : GRPCClientSettings :=
  ⟨[], "localhost:1234", "", ⟨⟨"", "", ""⟩, true, ""⟩, none, 0, 0, false, "",
    some "doesntexist"⟩

/-- Fixture of TestGRPCServerSettingsError: a certificate path without a
key path, server side. -/
def certOnlyServerSettings : GRPCServerSettings :=
  ⟨⟨"127.0.0.1:1234", "tcp"⟩, some ⟨⟨"", "/doesnt/exist", ""⟩, ""⟩, 0, 0, 0, 0, none, none⟩

/-- Fixture of TestGRPCServerSettings_ToListener_Error: an out-of-range
port. -/
def badPortServerSettings : GRPCServerSettings :=
  ⟨⟨"127.0.0.1:1234567", "tcp"⟩, none, 0, 0, 0, 0, none, none⟩

/-- Fixture of TestReceiveOnUnixDomainSocket: a file-socket endpoint. -/
def unixServerSettings : GRPCServerSettings :=
  ⟨⟨"/tmp/sock-test", "unix"⟩, none, 0, 0, 0, 0, none, none⟩

/-- Fixture with the insecure flag and no TLS files but an unrecognized
balancer name. -/
def insecureBadBalancerSettings : GRPCClientSettings :=
  ⟨[], "", "", ⟨⟨"", "", ""⟩, true, ""⟩, none, 0, 0, false, "test", none⟩

/-- Fixture of TestAllGrpcServerSettingsExceptAuth-style servers: a fixed
valid network port. -/
def fixedPortServerSettings : GRPCServerSettings :=
  ⟨⟨"localhost:1234", "tcp"⟩, none, 0, 0, 0, 0, none, none⟩

/-- Fixture of TestHttpReception-style servers: the ephemeral port form. -/
def ephemeralServerSettings : GRPCServerSettings :=
  ⟨⟨"localhost:0", "tcp"⟩, none, 0, 0, 0, 0, none, none⟩

/-!
Helper lemmas shared by the claim theorems.
-/

theorem fromContext_contextWithClient_peer (ctx : Context) (a : String)
    (h : ctx.peerAddr = some a) :
    client.FromContext (contextWithClient ctx) = ⟨some a⟩ := by
  simp [contextWithClient, peer.FromContext, client.NewContext, client.FromContext, h]

theorem fromContext_contextWithClient_noPeer (ctx : Context)
    (h : ctx.peerAddr = none) :
    client.FromContext (contextWithClient ctx) = client.FromContext ctx := by
  simp [contextWithClient, peer.FromContext, client.NewContext, client.FromContext, h]

/-- C1: the identity-enrichment operation contextWithClient yields a
client record such that: a transport peer address, when exposed, is
carried in the resulting ClientInfo, unconditionally overriding any
ClientInfo address already present; without a peer address any ClientInfo
already present is kept unchanged; and with neither present the result is
the empty ClientInfo record. -/
theorem contextWithClient_identity_enrichment (ctx : Context) :
    (∀ a, peer.FromContext ctx = some a →
      client.FromContext (contextWithClient ctx) = ⟨some a⟩) ∧
    (peer.FromContext ctx = none →
      client.FromContext (contextWithClient ctx) = client.FromContext ctx) ∧
    (peer.FromContext ctx = none → ctx.clientInfo = none →
      client.FromContext (contextWithClient ctx) = ⟨none⟩) := by
  refine ⟨fun a ha => fromContext_contextWithClient_peer ctx a ha,
    fun h => fromContext_contextWithClient_noPeer ctx h, fun h hc => ?_⟩
  rw [fromContext_contextWithClient_noPeer ctx h]
  simp [client.FromContext, hc]

/-- Witness for C1 at the example given in the spec: peer address 1.2.3.4
overriding an upstream-set 5.6.7.8. -/
theorem contextWithClient_identity_enrichment_witness :
    client.FromContext (contextWithClient ⟨some ⟨some "5.6.7.8"⟩, some "1.2.3.4"⟩)
      = ⟨some "1.2.3.4"⟩ :=
  (contextWithClient_identity_enrichment ⟨some ⟨some "5.6.7.8"⟩, some "1.2.3.4"⟩).1
    "1.2.3.4" rfl

/-- C7: the streaming identity interceptor invokes the handler with a
wrapped stream whose context accessor returns the identity-enriched
context (so client.FromContext inside the handler yields the transport
peer address), returns exactly the result of the handler, never errors of its
own accord, and treats absence of peer information as a no-op. -/
theorem enhanceStreamWithClientInformation_spec (stream : ServerStream)
    (handler : ServerStream → Option String) :
    enhanceStreamWithClientInformation stream handler
      = handler (.wrapped stream (contextWithClient stream.context)) ∧
    (handler (.wrapped stream (contextWithClient stream.context)) = none →
      enhanceStreamWithClientInformation stream handler = none) ∧
    (∀ a, (stream.context).peerAddr = some a →
      client.FromContext
        ((ServerStream.wrapped stream (contextWithClient stream.context)).context)
        = ⟨some a⟩) ∧
    ((stream.context).peerAddr = none →
      client.FromContext
        ((ServerStream.wrapped stream (contextWithClient stream.context)).context)
        = client.FromContext stream.context) := by
  refine ⟨rfl, fun h => h, fun a ha => ?_, fun h => ?_⟩
  · exact fromContext_contextWithClient_peer _ a ha
  · exact fromContext_contextWithClient_noPeer _ h

/-- Witness for C7 at the test input: a base stream carrying peer
address 1.1.1.1 and a handler returning no error. -/
theorem enhanceStreamWithClientInformation_spec_witness :
    enhanceStreamWithClientInformation (.base ⟨none, some "1.1.1.1"⟩) (fun _ => none)
      = none ∧
    client.FromContext
      ((ServerStream.wrapped (.base ⟨none, some "1.1.1.1"⟩)
        (contextWithClient (ServerStream.base ⟨none, some "1.1.1.1"⟩).context)).context)
      = ⟨some "1.1.1.1"⟩ :=
  ⟨(enhanceStreamWithClientInformation_spec (.base ⟨none, some "1.1.1.1"⟩)
      (fun _ => none)).2.1 rfl,
    (enhanceStreamWithClientInformation_spec (.base ⟨none, some "1.1.1.1"⟩)
      (fun _ => none)).2.2.1 "1.1.1.1" rfl⟩

theorem pairwise_of_const_cat {α : Type} (f : α → Nat) {l : List α} {c : Nat}
    (h : ∀ x ∈ l, f x = c) :
    List.Pairwise (fun a b => f a ≤ f b) l := by
  induction l with
  | nil => exact List.Pairwise.nil
  | cons a tl ih =>
      refine List.Pairwise.cons (fun b hb => ?_) (ih (fun x hx => h x (List.mem_cons_of_mem a hx)))
      rw [h a (List.mem_cons_self a tl), h b (List.mem_cons_of_mem a hb)]

theorem pairwise_cat_append {α : Type} (f : α → Nat) {l₁ l₂ : List α} (c : Nat)
    (h₁ : ∀ x ∈ l₁, f x ≤ c) (h₂ : ∀ x ∈ l₂, c ≤ f x)
    (p₁ : List.Pairwise (fun a b => f a ≤ f b) l₁)
    (p₂ : List.Pairwise (fun a b => f a ≤ f b) l₂) :
    List.Pairwise (fun a b => f a ≤ f b) (l₁ ++ l₂) := by
  rw [List.pairwise_append]
  exact ⟨p₁, p₂, fun a ha b hb => le_trans (h₁ a ha) (h₂ b hb)⟩

theorem keepaliveClientOpts_cat (ka : Option KeepaliveClientConfig) :
    ∀ x ∈ keepaliveClientOpts ka, x.category = 1 := by
  cases ka <;> simp [keepaliveClientOpts, DialOption.category]

theorem authDialOpts_cat (aid : Option String) :
    ∀ x ∈ authDialOpts aid, x.category = 2 := by
  cases aid <;> simp [authDialOpts, DialOption.category]

theorem balancerOpts_cat (n : String) :
    ∀ x ∈ balancerOpts n, x.category = 3 := by
  unfold balancerOpts
  split <;> simp [DialOption.category]

theorem bufferDialOpts_cat (r w : Int) :
    ∀ x ∈ bufferDialOpts r w, x.category = 4 := by
  unfold bufferDialOpts
  split <;> split <;> simp [DialOption.category]

theorem compressionOpts_ok_cat (c : String) (l : List DialOption)
    (h : compressionOpts c = .ok l) : ∀ x ∈ l, x.category = 3 := by
  unfold compressionOpts at h
  split at h
  · cases h; simp
  · split at h
    · cases h; simp [DialOption.category]
    · cases h

theorem dial_assembled_pairwise (o : Option TLSCfg) (ka : Option KeepaliveClientConfig)
    (aid : Option String) (co : List DialOption) (hco : ∀ x ∈ co, x.category = 3)
    (bn : String) (r w : Int) :
    List.Pairwise (fun a b => DialOption.category a ≤ DialOption.category b)
      ([securityOption o] ++ (keepaliveClientOpts ka ++ (authDialOpts aid ++ (co
        ++ (balancerOpts bn ++ (bufferDialOpts r w
        ++ [DialOption.withUnaryInterceptor, DialOption.withStreamInterceptor])))))) := by
  have h5 : ∀ x ∈ [DialOption.withUnaryInterceptor, DialOption.withStreamInterceptor],
      DialOption.category x = 5 := by simp [DialOption.category]
  have p5 := pairwise_of_const_cat DialOption.category h5
  have p4 : List.Pairwise (fun a b => DialOption.category a ≤ DialOption.category b)
      (bufferDialOpts r w ++ [DialOption.withUnaryInterceptor, DialOption.withStreamInterceptor]) :=
    pairwise_cat_append _ 4 (fun x hx => le_of_eq (bufferDialOpts_cat r w x hx))
      (fun x hx => by rw [h5 x hx]; omega)
      (pairwise_of_const_cat _ (bufferDialOpts_cat r w)) p5
  have b4 : ∀ x ∈ bufferDialOpts r w
      ++ [DialOption.withUnaryInterceptor, DialOption.withStreamInterceptor],
      4 ≤ DialOption.category x := by
    intro x hx
    rcases List.mem_append.mp hx with hx | hx
    · rw [bufferDialOpts_cat r w x hx]
    · rw [h5 x hx]; omega
  have p3b : List.Pairwise (fun a b => DialOption.category a ≤ DialOption.category b)
      (balancerOpts bn ++ (bufferDialOpts r w
        ++ [DialOption.withUnaryInterceptor, DialOption.withStreamInterceptor])) :=
    pairwise_cat_append _ 3 (fun x hx => le_of_eq (balancerOpts_cat bn x hx))
      (fun x hx => le_trans (by omega) (b4 x hx))
      (pairwise_of_const_cat _ (balancerOpts_cat bn)) p4
  have b3b : ∀ x ∈ balancerOpts bn ++ (bufferDialOpts r w
      ++ [DialOption.withUnaryInterceptor, DialOption.withStreamInterceptor]),
      3 ≤ DialOption.category x := by
    intro x hx
    rcases List.mem_append.mp hx with hx | hx
    · rw [balancerOpts_cat bn x hx]
    · exact le_trans (by omega) (b4 x hx)
  have p3a : List.Pairwise (fun a b => DialOption.category a ≤ DialOption.category b)
      (co ++ (balancerOpts bn ++ (bufferDialOpts r w
        ++ [DialOption.withUnaryInterceptor, DialOption.withStreamInterceptor]))) :=
    pairwise_cat_append _ 3 (fun x hx => le_of_eq (hco x hx)) b3b
      (pairwise_of_const_cat _ hco) p3b
  have b3a : ∀ x ∈ co ++ (balancerOpts bn ++ (bufferDialOpts r w
      ++ [DialOption.withUnaryInterceptor, DialOption.withStreamInterceptor])),
      3 ≤ DialOption.category x := by
    intro x hx
    rcases List.mem_append.mp hx with hx | hx
    · rw [hco x hx]
    · exact b3b x hx
  have p2 : List.Pairwise (fun a b => DialOption.category a ≤ DialOption.category b)
      (authDialOpts aid ++ (co ++ (balancerOpts bn ++ (bufferDialOpts r w
        ++ [DialOption.withUnaryInterceptor, DialOption.withStreamInterceptor])))) :=
    pairwise_cat_append _ 2 (fun x hx => le_of_eq (authDialOpts_cat aid x hx))
      (fun x hx => le_trans (by omega) (b3a x hx))
      (pairwise_of_const_cat _ (authDialOpts_cat aid)) p3a
  have b2 : ∀ x ∈ authDialOpts aid ++ (co ++ (balancerOpts bn ++ (bufferDialOpts r w
      ++ [DialOption.withUnaryInterceptor, DialOption.withStreamInterceptor]))),
      2 ≤ DialOption.category x := by
    intro x hx
    rcases List.mem_append.mp hx with hx | hx
    · rw [authDialOpts_cat aid x hx]
    · exact le_trans (by omega) (b3a x hx)
  have p1 : List.Pairwise (fun a b => DialOption.category a ≤ DialOption.category b)
      (keepaliveClientOpts ka ++ (authDialOpts aid ++ (co ++ (balancerOpts bn
        ++ (bufferDialOpts r w
        ++ [DialOption.withUnaryInterceptor, DialOption.withStreamInterceptor]))))) :=
    pairwise_cat_append _ 1 (fun x hx => le_of_eq (keepaliveClientOpts_cat ka x hx))
      (fun x hx => le_trans (by omega) (b2 x hx))
      (pairwise_of_const_cat _ (keepaliveClientOpts_cat ka)) p2
  have b1 : ∀ x ∈ keepaliveClientOpts ka ++ (authDialOpts aid ++ (co ++ (balancerOpts bn
      ++ (bufferDialOpts r w
      ++ [DialOption.withUnaryInterceptor, DialOption.withStreamInterceptor])))),
      1 ≤ DialOption.category x := by
    intro x hx
    rcases List.mem_append.mp hx with hx | hx
    · rw [keepaliveClientOpts_cat ka x hx]
    · exact le_trans (by omega) (b2 x hx)
  refine pairwise_cat_append _ 0 ?_ (fun x hx => Nat.zero_le _) ?_ p1
  · intro x hx
    rcases List.mem_singleton.mp hx with rfl
    cases o <;> simp [securityOption, DialOption.category]
  · cases o <;> simp [securityOption]

theorem resolveAuthenticator_ok_eq (host : Host) (a : Option String) (w : Bool)
    (r : Option String) (h : resolveAuthenticator host a w = .ok r) : r = a := by
  unfold resolveAuthenticator at h
  split at h
  · cases h; rfl
  · split at h
    · cases h
    · split at h
      · cases h
      · split at h
        · cases h; rfl
        · cases h

theorem ToDialOptions_ok_shape (fs : FileSystem) (host : Host) (gcs : GRPCClientSettings)
    (opts : List DialOption) (h : gcs.ToDialOptions fs host = (opts, none)) :
    ∃ o authId co, gcs.tlsSetting.loadTLSConfig fs = .ok o ∧
      resolveAuthenticator host gcs.auth true = .ok authId ∧
      compressionOpts gcs.compression = .ok co ∧
      opts = [securityOption o] ++ (keepaliveClientOpts gcs.keepalive ++ (authDialOpts authId
        ++ (co ++ (balancerOpts gcs.balancerName
        ++ (bufferDialOpts gcs.readBufferSize gcs.writeBufferSize
        ++ [DialOption.withUnaryInterceptor, DialOption.withStreamInterceptor]))))) := by
  unfold GRPCClientSettings.ToDialOptions at h
  split at h
  · simp at h
  · split at h
    · simp at h
    · split at h
      · simp at h
      · split at h
        · simp at h
        · refine ⟨_, _, _, ?_, ?_, ?_, (congrArg Prod.fst h).symm⟩ <;> assumption

theorem ToServerOption_ok_shape (fs : FileSystem) (host : Host) (gss : GRPCServerSettings)
    (opts : List ServerOption) (h : gss.ToServerOption fs host = (opts, none)) :
    ∃ copts authId, serverCredOpts fs gss.tlsSetting = .ok copts ∧
      resolveAuthenticator host gss.auth false = .ok authId ∧
      opts = copts ++ (serverKeepaliveOpts gss.keepalive
        ++ ([ServerOption.chainUnaryInterceptor (unaryChain authId),
             ServerOption.chainStreamInterceptor (streamChain authId)]
        ++ serverLimitOpts gss)) := by
  unfold GRPCServerSettings.ToServerOption at h
  split at h
  · simp at h
  · split at h
    · simp at h
    · refine ⟨_, _, ?_, ?_, (congrArg Prod.fst h).symm⟩ <;> assumption

theorem serverCredOpts_ok_cat (fs : FileSystem) (t : Option TLSServerSetting)
    (l : List ServerOption) (h : serverCredOpts fs t = .ok l) :
    ∀ x ∈ l, x.category = 0 := by
  cases t with
  | none => cases h; simp
  | some s =>
      simp only [serverCredOpts] at h
      split at h
      · cases h
      · cases h; simp [ServerOption.category]

theorem serverKeepaliveOpts_cat (k : Option KeepaliveServerConfig) :
    ∀ x ∈ serverKeepaliveOpts k, x.category = 1 := by
  cases k with
  | none => simp [serverKeepaliveOpts]
  | some kk =>
      rcases kk with ⟨sp, ep⟩
      cases sp <;> cases ep <;> simp [serverKeepaliveOpts, ServerOption.category]

theorem serverLimitOpts_cat (gss : GRPCServerSettings) :
    ∀ x ∈ serverLimitOpts gss, x.category = 3 := by
  unfold serverLimitOpts
  split <;> split <;> split <;> split <;> simp [ServerOption.category]

theorem server_assembled_pairwise (copts : List ServerOption)
    (h0 : ∀ x ∈ copts, ServerOption.category x = 0)
    (ka : Option KeepaliveServerConfig) (authId : Option String)
    (gss : GRPCServerSettings) :
    List.Pairwise (fun a b => ServerOption.category a ≤ ServerOption.category b)
      (copts ++ (serverKeepaliveOpts ka
        ++ ([ServerOption.chainUnaryInterceptor (unaryChain authId),
             ServerOption.chainStreamInterceptor (streamChain authId)]
        ++ serverLimitOpts gss))) := by
  have h2 : ∀ x ∈ [ServerOption.chainUnaryInterceptor (unaryChain authId),
      ServerOption.chainStreamInterceptor (streamChain authId)],
      ServerOption.category x = 2 := by simp [ServerOption.category]
  have p2 : List.Pairwise (fun a b => ServerOption.category a ≤ ServerOption.category b)
      ([ServerOption.chainUnaryInterceptor (unaryChain authId),
        ServerOption.chainStreamInterceptor (streamChain authId)]
        ++ serverLimitOpts gss) :=
    pairwise_cat_append _ 2 (fun x hx => le_of_eq (h2 x hx))
      (fun x hx => by rw [serverLimitOpts_cat gss x hx]; omega)
      (pairwise_of_const_cat _ h2) (pairwise_of_const_cat _ (serverLimitOpts_cat gss))
  have b2 : ∀ x ∈ [ServerOption.chainUnaryInterceptor (unaryChain authId),
      ServerOption.chainStreamInterceptor (streamChain authId)] ++ serverLimitOpts gss,
      2 ≤ ServerOption.category x := by
    intro x hx
    rcases List.mem_append.mp hx with hx | hx
    · rw [h2 x hx]
    · rw [serverLimitOpts_cat gss x hx]; omega
  have p1 : List.Pairwise (fun a b => ServerOption.category a ≤ ServerOption.category b)
      (serverKeepaliveOpts ka
        ++ ([ServerOption.chainUnaryInterceptor (unaryChain authId),
             ServerOption.chainStreamInterceptor (streamChain authId)]
        ++ serverLimitOpts gss)) :=
    pairwise_cat_append _ 1 (fun x hx => le_of_eq (serverKeepaliveOpts_cat ka x hx))
      (fun x hx => le_trans (by omega) (b2 x hx))
      (pairwise_of_const_cat _ (serverKeepaliveOpts_cat ka)) p2
  refine pairwise_cat_append _ 0 (fun x hx => le_of_eq (h0 x hx))
    (fun x hx => Nat.zero_le _) (pairwise_of_const_cat _ h0) p1

/-- C8: every successful compilation appends its options in the fixed
documented sequence (transport security, then keepalive, then the
authenticator/identity interceptor block, then buffer and limit
settings), captured by the non-decreasing option categories; and the
server path installs the Identity Propagation Middleware as the first
unary and first streaming interceptor, ahead of any authenticator
interceptor. -/
theorem compiled_option_order (fs : FileSystem) (host : Host)
    (gcs : GRPCClientSettings) (gss : GRPCServerSettings) :
    (∀ opts, gcs.ToDialOptions fs host = (opts, none) →
      List.Pairwise (fun a b => DialOption.category a ≤ DialOption.category b) opts) ∧
    (∀ opts, gss.ToServerOption fs host = (opts, none) →
      List.Pairwise (fun a b => ServerOption.category a ≤ ServerOption.category b) opts ∧
      ∃ restU restS,
        ServerOption.chainUnaryInterceptor (UnaryInterceptor.identity :: restU) ∈ opts ∧
        ServerOption.chainStreamInterceptor (StreamInterceptor.identity :: restS) ∈ opts ∧
        (∀ id, gss.auth = some id →
          UnaryInterceptor.auth id ∈ restU ∧ StreamInterceptor.auth id ∈ restS)) := by
  constructor
  · intro opts h
    obtain ⟨o, authId, co, _, _, hco, rfl⟩ := ToDialOptions_ok_shape fs host gcs opts h
    exact dial_assembled_pairwise o gcs.keepalive authId co
      (compressionOpts_ok_cat _ _ hco) _ _ _
  · intro opts h
    obtain ⟨copts, authId, hcred, hauth, rfl⟩ := ToServerOption_ok_shape fs host gss opts h
    obtain rfl := resolveAuthenticator_ok_eq host gss.auth false authId hauth
    refine ⟨server_assembled_pairwise copts (serverCredOpts_ok_cat _ _ _ hcred) _ gss.auth gss,
      (unaryChain gss.auth).tail, (streamChain gss.auth).tail, ?_, ?_, ?_⟩
    · simp [unaryChain]
    · simp [streamChain]
    · intro id hid
      rw [hid]
      constructor <;> simp [unaryChain, streamChain]

theorem resolveAuthenticator_error_shape (host : Host) (a : Option String) (w : Bool)
    (e : CompileError) (h : resolveAuthenticator host a w = .error e) :
    e = .noExtensionsAvailable ∨ ∃ id e2, e = .authResolve id e2 := by
  unfold resolveAuthenticator at h
  split at h
  · cases h
  · split at h
    · cases h; exact Or.inl rfl
    · split at h
      · cases h; exact Or.inr ⟨_, _, rfl⟩
      · split at h
        · cases h
        · cases h; exact Or.inr ⟨_, _, rfl⟩

theorem compressionOpts_error_shape (c : String) (e : CompileError)
    (h : compressionOpts c = .error e) : e = .unsupportedCompression c := by
  unfold compressionOpts at h
  split at h
  · cases h
  · split at h
    · cases h
    · cases h; rfl

theorem ToDialOptions_err_shape (fs : FileSystem) (host : Host) (gcs : GRPCClientSettings)
    (e : CompileError) (h : (gcs.ToDialOptions fs host).2 = some e) :
    (∃ e2, e = .tlsConfig e2 ∧ gcs.tlsSetting.loadTLSConfig fs = .error e2) ∨
    (e = .invalidBalancerName gcs.balancerName
      ∧ (gcs.balancerName != "" && !(validBalancerName gcs.balancerName)) = true) ∨
    resolveAuthenticator host gcs.auth true = .error e ∨
    compressionOpts gcs.compression = .error e := by
  unfold GRPCClientSettings.ToDialOptions at h
  split at h
  · rename_i e2 he2
    cases h
    exact Or.inl ⟨e2, rfl, he2⟩
  · split at h
    · cases h
      rename_i hc
      exact Or.inr (Or.inl ⟨rfl, by simpa using hc⟩)
    · split at h
      · cases h
        rename_i he
        exact Or.inr (Or.inr (Or.inl he))
      · split at h
        · cases h
          rename_i he
          exact Or.inr (Or.inr (Or.inr he))
        · cases h

theorem serverCredOpts_error_shape (fs : FileSystem) (t : Option TLSServerSetting)
    (e : TLSError) (h : serverCredOpts fs t = .error e) :
    ∃ s, t = some s ∧ s.loadTLSConfig fs = .error e := by
  cases t with
  | none => cases h
  | some s =>
      simp only [serverCredOpts] at h
      split at h
      · cases h; exact ⟨s, rfl, by assumption⟩
      · cases h

theorem ToServerOption_err_shape (fs : FileSystem) (host : Host) (gss : GRPCServerSettings)
    (e : CompileError) (h : (gss.ToServerOption fs host).2 = some e) :
    (∃ e2, e = .tlsConfig e2 ∧ serverCredOpts fs gss.tlsSetting = .error e2) ∨
    resolveAuthenticator host gss.auth false = .error e := by
  unfold GRPCServerSettings.ToServerOption at h
  split at h
  · rename_i e2 he2
    cases h
    exact Or.inl ⟨e2, rfl, he2⟩
  · split at h
    · cases h
      rename_i he
      exact Or.inr he
    · cases h

theorem loadTLSSettingBase_no_pairing (fs : FileSystem) (t : TLSSetting)
    (hpair : (t.certFile == "") = (t.keyFile == "")) :
    loadTLSSettingBase fs t ≠ .error .certKeyPairing := by
  unfold loadTLSSettingBase
  split
  · simp
  · rw [hpair]
    simp only [bne_self_eq_false, Bool.false_eq_true, if_false]
    split <;> simp

theorem loadTLSSettingBase_pairing_error (fs : FileSystem) (t : TLSSetting)
    (hxor : ((t.certFile == "") != (t.keyFile == "")) = true)
    (hca : t.caFile = "" ∨ fileReadable fs t.caFile = true) :
    loadTLSSettingBase fs t = .error .certKeyPairing := by
  have hcab : (t.caFile != "" && !(fileReadable fs t.caFile)) = false := by
    rcases hca with h | h <;> simp [h]
  unfold loadTLSSettingBase
  rw [hcab, hxor]
  simp

theorem loadTLSConfig_no_pairing_client (fs : FileSystem) (c : TLSClientSetting)
    (hpair : (c.tlsSetting.certFile == "") = (c.tlsSetting.keyFile == "")) :
    c.loadTLSConfig fs ≠ .error .certKeyPairing := by
  unfold TLSClientSetting.loadTLSConfig
  split
  · simp
  · split
    · rename_i he
      intro hcontra
      cases hcontra
      exact loadTLSSettingBase_no_pairing fs c.tlsSetting hpair he
    · simp

theorem loadTLSConfig_pairing_error_client (fs : FileSystem) (c : TLSClientSetting)
    (hxor : ((c.tlsSetting.certFile == "") != (c.tlsSetting.keyFile == "")) = true)
    (hca : c.tlsSetting.caFile = "" ∨ fileReadable fs c.tlsSetting.caFile = true) :
    c.loadTLSConfig fs = .error .certKeyPairing := by
  have hnobypass : (c.insecure && c.tlsSetting.caFile == "" && c.tlsSetting.certFile == ""
      && c.tlsSetting.keyFile == "") = false := by
    rcases Bool.eq_false_or_eq_true (c.tlsSetting.certFile == "") with h | h <;>
      rcases Bool.eq_false_or_eq_true (c.tlsSetting.keyFile == "") with h2 | h2 <;>
      simp [h, h2] at hxor ⊢
  unfold TLSClientSetting.loadTLSConfig
  rw [hnobypass]
  simp [loadTLSSettingBase_pairing_error fs c.tlsSetting hxor hca]

theorem loadTLSConfig_no_pairing_server (fs : FileSystem) (s : TLSServerSetting)
    (hpair : (s.tlsSetting.certFile == "") = (s.tlsSetting.keyFile == "")) :
    s.loadTLSConfig fs ≠ .error .certKeyPairing := by
  unfold TLSServerSetting.loadTLSConfig
  split
  · rename_i he
    intro hcontra
    cases hcontra
    exact loadTLSSettingBase_no_pairing fs s.tlsSetting hpair he
  · split <;> simp

theorem loadTLSConfig_pairing_error_server (fs : FileSystem) (s : TLSServerSetting)
    (hxor : ((s.tlsSetting.certFile == "") != (s.tlsSetting.keyFile == "")) = true)
    (hca : s.tlsSetting.caFile = "" ∨ fileReadable fs s.tlsSetting.caFile = true) :
    s.loadTLSConfig fs = .error .certKeyPairing := by
  unfold TLSServerSetting.loadTLSConfig
  rw [loadTLSSettingBase_pairing_error fs s.tlsSetting hxor hca]

theorem ToDialOptions_tls_fail (fs : FileSystem) (host : Host) (gcs : GRPCClientSettings)
    (e : TLSError) (h : gcs.tlsSetting.loadTLSConfig fs = .error e) :
    gcs.ToDialOptions fs host = ([], some (.tlsConfig e)) := by
  unfold GRPCClientSettings.ToDialOptions
  rw [h]

theorem ToServerOption_tls_fail (fs : FileSystem) (host : Host) (gss : GRPCServerSettings)
    (s : TLSServerSetting) (e : TLSError) (hs : gss.tlsSetting = some s)
    (h : s.loadTLSConfig fs = .error e) :
    gss.ToServerOption fs host = ([], some (.tlsConfig e)) := by
  unfold GRPCServerSettings.ToServerOption
  rw [hs]
  simp only [serverCredOpts]
  rw [h]

/-- C2: compilation passes the certificate/key pairing check exactly when
the certificate and key paths are both empty or both non-empty; when
exactly one of the two is non-empty (and the CA bundle, if named, is
loadable) both ToDialOptions and ToServerOption fail with the
TLSConfigError whose message states that both or neither must be
supplied. -/
theorem tls_cert_key_pairing_check (fs : FileSystem) (host : Host)
    (gcs : GRPCClientSettings) (gss : GRPCServerSettings) :
    ((gcs.tlsSetting.tlsSetting.certFile == "") = (gcs.tlsSetting.tlsSetting.keyFile == "") →
      (gcs.ToDialOptions fs host).2 ≠ some (.tlsConfig .certKeyPairing)) ∧
    (((gcs.tlsSetting.tlsSetting.certFile == "")
        != (gcs.tlsSetting.tlsSetting.keyFile == "")) = true →
      (gcs.tlsSetting.tlsSetting.caFile = ""
        ∨ fileReadable fs gcs.tlsSetting.tlsSetting.caFile = true) →
      gcs.ToDialOptions fs host = ([], some (.tlsConfig .certKeyPairing))) ∧
    (∀ s, gss.tlsSetting = some s →
      ((s.tlsSetting.certFile == "") = (s.tlsSetting.keyFile == "") →
        (gss.ToServerOption fs host).2 ≠ some (.tlsConfig .certKeyPairing)) ∧
      (((s.tlsSetting.certFile == "") != (s.tlsSetting.keyFile == "")) = true →
        (s.tlsSetting.caFile = "" ∨ fileReadable fs s.tlsSetting.caFile = true) →
        gss.ToServerOption fs host = ([], some (.tlsConfig .certKeyPairing)))) ∧
    CompileError.message (.tlsConfig .certKeyPairing)
      = "failed to load TLS config: for auth via TLS, either both certificate and key must be supplied, or neither" := by
  refine ⟨fun hpair h => ?_, fun hxor hca => ?_, fun s hs => ⟨fun hpair h => ?_, fun hxor hca => ?_⟩, rfl⟩
  · rcases ToDialOptions_err_shape fs host gcs _ h with ⟨e2, he, hload⟩ | ⟨he, _⟩ | hr | hr
    · cases he
      exact loadTLSConfig_no_pairing_client fs gcs.tlsSetting hpair hload
    · cases he
    · rcases resolveAuthenticator_error_shape _ _ _ _ hr with he | ⟨id, e2, he⟩ <;> cases he
    · cases compressionOpts_error_shape _ _ hr
  · exact ToDialOptions_tls_fail fs host gcs _
      (loadTLSConfig_pairing_error_client fs gcs.tlsSetting hxor hca)
  · rcases ToServerOption_err_shape fs host gss _ h with ⟨e2, he, hcred⟩ | hr
    · cases he
      obtain ⟨s2, hs2, hload⟩ := serverCredOpts_error_shape fs gss.tlsSetting _ hcred
      rw [hs] at hs2
      cases hs2
      exact loadTLSConfig_no_pairing_server fs s hpair hload
    · rcases resolveAuthenticator_error_shape _ _ _ _ hr with he | ⟨id, e2, he⟩ <;> cases he
  · exact ToServerOption_tls_fail fs host gss s _ hs
      (loadTLSConfig_pairing_error_server fs s hxor hca)

/-- Witness for C2 at the test fixtures: a certificate path without a key
path, on the client and on the server path. -/
theorem tls_cert_key_pairing_check_witness :
    certOnlyClientSettings.ToDialOptions [] nopHost
      = ([], some (.tlsConfig .certKeyPairing)) ∧
    certOnlyServerSettings.ToServerOption [] nopHost
      = ([], some (.tlsConfig .certKeyPairing)) :=
  ⟨(tls_cert_key_pairing_check [] nopHost certOnlyClientSettings certOnlyServerSettings).2.1
      rfl (Or.inl rfl),
    ((tls_cert_key_pairing_check [] nopHost certOnlyClientSettings certOnlyServerSettings).2.2.1
      ⟨⟨"", "/doesnt/exist", ""⟩, ""⟩ rfl).2 rfl (Or.inl rfl)⟩

theorem balancer_cond_false (gcs : GRPCClientSettings)
    (hbal : gcs.balancerName = "" ∨ validBalancerName gcs.balancerName = true) :
    (gcs.balancerName != "" && !(validBalancerName gcs.balancerName)) = false := by
  rcases hbal with h | h <;> simp [h]

theorem ToDialOptions_balancer_fail (fs : FileSystem) (host : Host)
    (gcs : GRPCClientSettings) (o : Option TLSCfg)
    (hload : gcs.tlsSetting.loadTLSConfig fs = .ok o)
    (hbn : (gcs.balancerName != "" && !(validBalancerName gcs.balancerName)) = true) :
    gcs.ToDialOptions fs host = ([], some (.invalidBalancerName gcs.balancerName)) := by
  unfold GRPCClientSettings.ToDialOptions
  rw [hload]
  simp [hbn]

theorem ToDialOptions_auth_fail (fs : FileSystem) (host : Host)
    (gcs : GRPCClientSettings) (o : Option TLSCfg) (e : CompileError)
    (hload : gcs.tlsSetting.loadTLSConfig fs = .ok o)
    (hbn : (gcs.balancerName != "" && !(validBalancerName gcs.balancerName)) = false)
    (hr : resolveAuthenticator host gcs.auth true = .error e) :
    gcs.ToDialOptions fs host = ([], some e) := by
  unfold GRPCClientSettings.ToDialOptions
  rw [hload]
  simp [hbn, hr]

/-- C5: ToDialOptions passes the balancer check when the balancer policy
name is empty or recognized (round_robin is recognized), and fails with
the InvalidBalancerName error naming the offending value, rendered as
"invalid balancer_name: <name>", for every unrecognized non-empty name
(once transport security has resolved). -/
theorem balancer_name_validation (fs : FileSystem) (host : Host)
    (gcs : GRPCClientSettings) :
    validBalancerName "round_robin" = true ∧
    ((gcs.balancerName = "" ∨ validBalancerName gcs.balancerName = true) →
      ∀ n, (gcs.ToDialOptions fs host).2 ≠ some (.invalidBalancerName n)) ∧
    (gcs.balancerName ≠ "" → validBalancerName gcs.balancerName = false →
      ∀ o, gcs.tlsSetting.loadTLSConfig fs = .ok o →
        gcs.ToDialOptions fs host = ([], some (.invalidBalancerName gcs.balancerName))) ∧
    CompileError.message (.invalidBalancerName gcs.balancerName)
      = "invalid balancer_name: " ++ gcs.balancerName := by
  refine ⟨rfl, fun hok n h => ?_, fun hne hval o hload => ?_, rfl⟩
  · rcases ToDialOptions_err_shape fs host gcs _ h with ⟨e2, he, _⟩ | ⟨he, hcond⟩ | hr | hr
    · cases he
    · rw [balancer_cond_false gcs hok] at hcond
      cases hcond
    · rcases resolveAuthenticator_error_shape _ _ _ _ hr with he | ⟨id, e2, he⟩ <;> cases he
    · cases compressionOpts_error_shape _ _ hr
  · have hbn : (gcs.balancerName != "" && !(validBalancerName gcs.balancerName)) = true := by
      simp [hne, hval]
    exact ToDialOptions_balancer_fail fs host gcs o hload hbn

/-- Witness for C5 at the test fixture: balancer name "test" is rejected
with the documented message. -/
theorem balancer_name_validation_witness :
    badBalancerClientSettings.ToDialOptions [] nopHost
      = ([], some (.invalidBalancerName "test")) ∧
    CompileError.message (.invalidBalancerName "test") = "invalid balancer_name: test" :=
  ⟨(balancer_name_validation [] nopHost badBalancerClientSettings).2.2.1 (by decide) rfl
      (some ⟨"", "", "", "", ""⟩) rfl, rfl⟩

/-- C3: with transport security and the balancer check passing, an
authenticator reference naming an identifier absent from a present
registry fails with the wrapped AuthenticatorNotFound error naming that
identifier, while a host exposing no registry at all fails with the
NoExtensionsAvailable error propagated verbatim. -/
theorem authenticator_resolution_failures (fs : FileSystem) (host : Host)
    (gcs : GRPCClientSettings) (id : String) (o : Option TLSCfg)
    (hload : gcs.tlsSetting.loadTLSConfig fs = .ok o)
    (hbal : gcs.balancerName = "" ∨ validBalancerName gcs.balancerName = true)
    (hauth : gcs.auth = some id) :
    (∀ exts, host.extensions = some exts → exts.lookup id = none →
      gcs.ToDialOptions fs host = ([], some (.authResolve id .authenticatorNotFound)) ∧
      CompileError.message (.authResolve id .authenticatorNotFound)
        = "failed to resolve authenticator \"" ++ id ++ "\": " ++ "authenticator not found") ∧
    (host.extensions = none →
      gcs.ToDialOptions fs host = ([], some .noExtensionsAvailable) ∧
      CompileError.message .noExtensionsAvailable
        = "no extensions configuration available") := by
  constructor
  · intro exts hexts hlookup
    have hr : resolveAuthenticator host gcs.auth true
        = .error (.authResolve id .authenticatorNotFound) := by
      simp [resolveAuthenticator, hauth, hexts, hlookup]
    exact ⟨ToDialOptions_auth_fail fs host gcs o _ hload (balancer_cond_false gcs hbal) hr, rfl⟩
  · intro hexts
    have hr : resolveAuthenticator host gcs.auth true = .error .noExtensionsAvailable := by
      simp [resolveAuthenticator, hauth, hexts]
    exact ⟨ToDialOptions_auth_fail fs host gcs o _ hload (balancer_cond_false gcs hbal) hr, rfl⟩

/-- Witness for C3 at the test fixtures: identifier "doesntexist" against
an empty-but-present registry, and against a host with no registry. -/
theorem authenticator_resolution_failures_witness :
    authMissingClientSettings.ToDialOptions [] ⟨some []⟩
      = ([], some (.authResolve "doesntexist" .authenticatorNotFound)) ∧
    CompileError.message (.authResolve "doesntexist" .authenticatorNotFound)
      = "failed to resolve authenticator \"doesntexist\": authenticator not found" ∧
    authMissingClientSettings.ToDialOptions [] nopHost
      = ([], some .noExtensionsAvailable) :=
  ⟨((authenticator_resolution_failures [] ⟨some []⟩ authMissingClientSettings "doesntexist"
      none rfl (Or.inl rfl) rfl).1 [] rfl rfl).1, rfl,
    ((authenticator_resolution_failures [] nopHost authMissingClientSettings "doesntexist"
      none rfl (Or.inl rfl) rfl).2 rfl).1⟩


theorem dial_nil_or_ok (fs : FileSystem) (host : Host) (gcs : GRPCClientSettings) :
    (gcs.ToDialOptions fs host).1 = [] ∨ (gcs.ToDialOptions fs host).2 = none := by
  unfold GRPCClientSettings.ToDialOptions
  split
  · exact Or.inl rfl
  · split
    · exact Or.inl rfl
    · split
      · exact Or.inl rfl
      · split
        · exact Or.inl rfl
        · exact Or.inr rfl

theorem server_nil_or_ok (fs : FileSystem) (host : Host) (gss : GRPCServerSettings) :
    (gss.ToServerOption fs host).1 = [] ∨ (gss.ToServerOption fs host).2 = none := by
  unfold GRPCServerSettings.ToServerOption
  split
  · exact Or.inl rfl
  · split
    · exact Or.inl rfl
    · exact Or.inr rfl

/-- C4: compilation fails atomically: whenever ToDialOptions or
ToServerOption returns an error, the accompanying option list is empty —
no partial option list is ever returned. -/
theorem compile_atomic_failure (fs : FileSystem) (host : Host)
    (gcs : GRPCClientSettings) (gss : GRPCServerSettings) :
    (∀ e, (gcs.ToDialOptions fs host).2 = some e → (gcs.ToDialOptions fs host).1 = []) ∧
    (∀ e, (gss.ToServerOption fs host).2 = some e → (gss.ToServerOption fs host).1 = []) := by
  refine ⟨fun e he => ?_, fun e he => ?_⟩
  · rcases dial_nil_or_ok fs host gcs with h | h
    · exact h
    · rw [h] at he
      cases he
  · rcases server_nil_or_ok fs host gss with h | h
    · exact h
    · rw [h] at he
      cases he

/-- Witness for C4 at the failing fixtures: the TLS pairing violation
yields an empty option list on both paths. -/
theorem compile_atomic_failure_witness :
    (certOnlyClientSettings.ToDialOptions [] nopHost).1 = [] ∧
    (certOnlyServerSettings.ToServerOption [] nopHost).1 = [] :=
  ⟨(compile_atomic_failure [] nopHost certOnlyClientSettings certOnlyServerSettings).1
      (.tlsConfig .certKeyPairing) rfl,
    (compile_atomic_failure [] nopHost certOnlyClientSettings certOnlyServerSettings).2
      (.tlsConfig .certKeyPairing) rfl⟩

/-- Counterexample to C6 as stated: a settings value with the insecure
flag set and no CA, certificate or key file, but an unrecognized balancer
name, still fails compilation — so ToDialOptions does not succeed for
every such settings value. -/
theorem insecure_bypass_counterexample :
    insecureBadBalancerSettings.tlsSetting.insecure = true ∧
    insecureBadBalancerSettings.tlsSetting.tlsSetting.caFile = "" ∧
    insecureBadBalancerSettings.tlsSetting.tlsSetting.certFile = "" ∧
    insecureBadBalancerSettings.tlsSetting.tlsSetting.keyFile = "" ∧
    (insecureBadBalancerSettings.ToDialOptions [] nopHost).2
      = some (.invalidBalancerName "test") ∧
    (insecureBadBalancerSettings.ToDialOptions [] nopHost).2 ≠ none := by
  refine ⟨rfl, rfl, rfl, rfl, rfl, by decide⟩

/-- C6 (amended): for every client settings value with the insecure flag
set and no CA, certificate or key file, whose remaining fields pass their
checks (balancer empty or recognized, compression empty or gzip,
authenticator absent or resolving), ToDialOptions succeeds, its result is
the same under every file system (no file read can influence it), and the
first emitted option is the no-security insecure transport marker. -/
theorem insecure_bypass (fs fs2 : FileSystem) (host : Host) (gcs : GRPCClientSettings)
    (hins : gcs.tlsSetting.insecure = true)
    (hca : gcs.tlsSetting.tlsSetting.caFile = "")
    (hcert : gcs.tlsSetting.tlsSetting.certFile = "")
    (hkey : gcs.tlsSetting.tlsSetting.keyFile = "")
    (hbal : gcs.balancerName = "" ∨ validBalancerName gcs.balancerName = true)
    (hcomp : ∃ co, compressionOpts gcs.compression = .ok co)
    (hauth : ∃ aid, resolveAuthenticator host gcs.auth true = .ok aid) :
    (gcs.ToDialOptions fs host).2 = none ∧
    gcs.ToDialOptions fs host = gcs.ToDialOptions fs2 host ∧
    (gcs.ToDialOptions fs host).1.head? = some .withInsecure := by
  obtain ⟨co, hc⟩ := hcomp
  obtain ⟨aid, ha⟩ := hauth
  have hload : ∀ fs3 : FileSystem, gcs.tlsSetting.loadTLSConfig fs3 = .ok none := by
    intro fs3
    unfold TLSClientSetting.loadTLSConfig
    simp [hins, hca, hcert, hkey]
  have hbn := balancer_cond_false gcs hbal
  have hres : ∀ fs3 : FileSystem, gcs.ToDialOptions fs3 host
      = ([securityOption none]
        ++ (keepaliveClientOpts gcs.keepalive ++ (authDialOpts aid ++ (co
        ++ (balancerOpts gcs.balancerName
        ++ (bufferDialOpts gcs.readBufferSize gcs.writeBufferSize
        ++ [DialOption.withUnaryInterceptor, DialOption.withStreamInterceptor]))))), none) := by
    intro fs3
    unfold GRPCClientSettings.ToDialOptions
    rw [hload fs3]
    simp [hbn, ha, hc]
  refine ⟨by rw [hres fs], by rw [hres fs, hres fs2], by rw [hres fs]; rfl⟩

/-- Witness for C6 (amended) at the test fixture: the default
insecure-only client settings, under a non-empty and an empty file
system. -/
theorem insecure_bypass_witness :
    (defaultClientSettings.ToDialOptions ["/some/file"] nopHost).2 = none ∧
    defaultClientSettings.ToDialOptions ["/some/file"] nopHost
      = defaultClientSettings.ToDialOptions [] nopHost ∧
    (defaultClientSettings.ToDialOptions ["/some/file"] nopHost).1.head?
      = some .withInsecure :=
  insecure_bypass ["/some/file"] [] nopHost defaultClientSettings rfl rfl rfl rfl
    (Or.inl rfl) ⟨[], rfl⟩ ⟨none, rfl⟩

/-- Witness for C8 at the default fixtures: the compiled option lists of
the insecure client and the zero-value server respect the documented
category order, and the server installs identity-first interceptor
chains. -/
theorem compiled_option_order_witness :
    List.Pairwise (fun a b => DialOption.category a ≤ DialOption.category b)
      (defaultClientSettings.ToDialOptions [] nopHost).1 ∧
    List.Pairwise (fun a b => ServerOption.category a ≤ ServerOption.category b)
      (defaultServerSettings.ToServerOption [] nopHost).1 ∧
    (∃ restU restS,
      ServerOption.chainUnaryInterceptor (UnaryInterceptor.identity :: restU)
        ∈ (defaultServerSettings.ToServerOption [] nopHost).1 ∧
      ServerOption.chainStreamInterceptor (StreamInterceptor.identity :: restS)
        ∈ (defaultServerSettings.ToServerOption [] nopHost).1 ∧
      (∀ id, defaultServerSettings.auth = some id →
        UnaryInterceptor.auth id ∈ restU ∧ StreamInterceptor.auth id ∈ restS)) :=
  ⟨(compiled_option_order [] nopHost defaultClientSettings defaultServerSettings).1 _ rfl,
    ((compiled_option_order [] nopHost defaultClientSettings defaultServerSettings).2 _ rfl).1,
    ((compiled_option_order [] nopHost defaultClientSettings defaultServerSettings).2 _ rfl).2⟩

/-- C9: listener creation fails with a wrapped bind error on a malformed
network address (missing or out-of-range port) and on an address some
other socket is already bound to; succeeds on a valid, free
stream-oriented address; on the ephemeral form (port 0) it yields the
address bound to the free port the operating system assigned; and it
supports the local file-socket transport kind, binding a fresh
filesystem-path endpoint and failing on a pre-existing socket path. -/
theorem listener_creation (env : NetEnv) (gss : GRPCServerSettings) :
    (gss.netAddr.transport = "tcp" →
      (splitHostPort gss.netAddr.endpoint = none →
        gss.ToListener env
          = .error (.bindError "tcp" gss.netAddr.endpoint "missing port in address")) ∧
      (∀ h p, splitHostPort gss.netAddr.endpoint = some (h, p) → parsePort p = none →
        gss.ToListener env
          = .error (.bindError "tcp" gss.netAddr.endpoint ("invalid port " ++ p))) ∧
      (∀ h p n, splitHostPort gss.netAddr.endpoint = some (h, p) →
        parsePort p = some n → n ≠ 0 →
        List.contains env.boundAddrs (h ++ ":" ++ toString n) = true →
        gss.ToListener env
          = .error (.bindError "tcp" gss.netAddr.endpoint "address already in use")) ∧
      (∀ h p n, splitHostPort gss.netAddr.endpoint = some (h, p) →
        parsePort p = some n → n ≠ 0 →
        List.contains env.boundAddrs (h ++ ":" ++ toString n) = false →
        gss.ToListener env = .ok ⟨"tcp", h ++ ":" ++ toString n⟩) ∧
      (∀ h p, splitHostPort gss.netAddr.endpoint = some (h, p) → parsePort p = some 0 →
        gss.ToListener env = .ok ⟨"tcp", h ++ ":" ++ toString env.ephemeralPort⟩)) ∧
    (gss.netAddr.transport = "unix" →
      (List.contains env.existingPaths gss.netAddr.endpoint = true →
        gss.ToListener env
          = .error (.bindError "unix" gss.netAddr.endpoint "address already in use")) ∧
      (List.contains env.existingPaths gss.netAddr.endpoint = false →
        gss.ToListener env = .ok ⟨"unix", gss.netAddr.endpoint⟩)) := by
  constructor
  · intro htr
    refine ⟨fun hsplit => ?_, fun h p hsplit hport => ?_,
      fun h p n hsplit hport hn hbound => ?_, fun h p n hsplit hport hn hfree => ?_,
      fun h p hsplit hport => ?_⟩
    · unfold GRPCServerSettings.ToListener netListen
      rw [htr, hsplit]
      rfl
    · unfold GRPCServerSettings.ToListener netListen
      rw [htr, hsplit]
      simp [hport]
    · cases n with
      | zero => exact absurd rfl hn
      | succ m =>
          unfold GRPCServerSettings.ToListener netListen
          rw [htr, hsplit]
          simp [hport, hbound]
          simpa using hbound
    · cases n with
      | zero => exact absurd rfl hn
      | succ m =>
          unfold GRPCServerSettings.ToListener netListen
          rw [htr, hsplit]
          simp [hport, hfree]
          simpa using hfree
    · unfold GRPCServerSettings.ToListener netListen
      rw [htr, hsplit]
      simp [hport]
  · intro htr
    refine ⟨fun hexist => ?_, fun hfresh => ?_⟩
    · unfold GRPCServerSettings.ToListener netListen
      rw [htr]
      simp [hexist]
      simpa using hexist
    · unfold GRPCServerSettings.ToListener netListen
      rw [htr]
      simp [hfresh]
      simpa using hfresh


/-- Witness for C9 at the test fixtures: the out-of-range port fails with
the wrapped bind error, a fixed free port binds, an already-bound address
and a pre-existing socket path fail with the bind error, the ephemeral
port-0 form yields the concrete address the operating system assigned,
and the file-socket transport binds a fresh filesystem path. -/
theorem listener_creation_witness :
    badPortServerSettings.ToListener ⟨41086, [], []⟩
      = .error (.bindError "tcp" "127.0.0.1:1234567" "invalid port 1234567") ∧
    fixedPortServerSettings.ToListener ⟨41086, [], []⟩
      = .ok ⟨"tcp", "localhost:1234"⟩ ∧
    fixedPortServerSettings.ToListener ⟨41086, ["localhost:1234"], []⟩
      = .error (.bindError "tcp" "localhost:1234" "address already in use") ∧
    ephemeralServerSettings.ToListener ⟨41086, [], []⟩
      = .ok ⟨"tcp", "localhost:41086"⟩ ∧
    unixServerSettings.ToListener ⟨41086, [], []⟩ = .ok ⟨"unix", "/tmp/sock-test"⟩ ∧
    unixServerSettings.ToListener ⟨41086, [], ["/tmp/sock-test"]⟩
      = .error (.bindError "unix" "/tmp/sock-test" "address already in use") :=
  ⟨((listener_creation ⟨41086, [], []⟩ badPortServerSettings).1 rfl).2.1 "127.0.0.1"
      "1234567" (by rfl) (by rfl),
    ((listener_creation ⟨41086, [], []⟩ fixedPortServerSettings).1 rfl).2.2.2.1 "localhost"
      "1234" 1234 (by rfl) (by rfl) (by decide) (by rfl),
    ((listener_creation ⟨41086, ["localhost:1234"], []⟩ fixedPortServerSettings).1
      rfl).2.2.1 "localhost" "1234" 1234 (by rfl) (by rfl) (by decide) (by rfl),
    ((listener_creation ⟨41086, [], []⟩ ephemeralServerSettings).1 rfl).2.2.2.2 "localhost"
      "0" (by rfl) (by rfl),
    ((listener_creation ⟨41086, [], []⟩ unixServerSettings).2 rfl).2 rfl,
    ((listener_creation ⟨41086, [], ["/tmp/sock-test"]⟩ unixServerSettings).2 rfl).1 rfl⟩

/-- C10: the number of compiled options is a deterministic function of the
populated fields: the insecure-only client yields exactly 3 dial options,
the fully populated client yields exactly 9, the zero-value server always
compiles to exactly 2 server options (the two identity interceptor
chains), and the fully populated server (without auth) yields exactly 9 —
under every file system and, where no authenticator is referenced, every
host. -/
theorem option_counts (fs : FileSystem) (host : Host) :
    (defaultClientSettings.ToDialOptions fs host).1.length = 3 ∧
    (defaultClientSettings.ToDialOptions fs host).2 = none ∧
    (allClientSettings.ToDialOptions fs allSettingsHost).1.length = 9 ∧
    (allClientSettings.ToDialOptions fs allSettingsHost).2 = none ∧
    (defaultServerSettings.ToServerOption fs host).1.length = 2 ∧
    (defaultServerSettings.ToServerOption fs host).2 = none ∧
    (allServerSettings.ToServerOption fs host).1.length = 9 ∧
    (allServerSettings.ToServerOption fs host).2 = none :=
  ⟨rfl, rfl, rfl, rfl, rfl, rfl, rfl, rfl⟩
